import Mathlib

/-!
Shallow embedding of the goxide library (packages `option`, `result`, `types`,
`chain`) and proofs of the specification claims about it.

Modelling conventions:
* Go's nilable `error` interface is `Option GoError`; `GoError` values are
  built by `errors.New` (modelled as `GoError.base` with an identity tag) or by
  `fmt.Errorf` with `%w` wrapping (modelled as `GoError.wrap`).
* Go panics and the `recover` protocol are modelled by the `Outcome` type: a
  computation either returns a value or carries a panic payload.  A deferred
  recovery point acts on a `DeferState`, the pair of the named result slot and
  the in-flight panic (if any).
* Pointers inside the Go structs (`*T` in `Option[T]`) are modelled by Lean's
  `Option`, with `none` for nil; dereferencing nil is a runtime panic.
-/

set_option autoImplicit false

universe u

/-- Go error values reachable in this development: `errors.New` sentinels
(identified by a tag) and `fmt.Errorf("...: %w", inner)` wrappers.  This models
the Go standard library's error values as used by the repository. -/
inductive GoError where
  | base (id : Nat)
  | wrap (msg : Nat) (inner : GoError)
deriving DecidableEq, Repr

/-- Go standard library `errors.Is` for errors without custom `Is` methods:
walk the `Unwrap` chain and compare by identity at each step. -/
def errorsIs : GoError → GoError → Bool
  | GoError.base i, target => GoError.base i == target
  | GoError.wrap m inner, target => (GoError.wrap m inner == target) || errorsIs inner target

/-- `errors.Is` applied to a nilable Go error (`nil` matches nothing). -/
def errorsIsOpt (e : Option GoError) (target : GoError) : Bool :=
  match e with
  | none => false
  | some e0 => errorsIs e0 target

/-- A Go panic payload: the library's own `tryError` signal (carrying the
wrapped error), a plain string panic (used by `Expect`/`Unwrap` and by the
chain's type-mismatch panic), or a runtime nil-pointer dereference. -/
inductive PanicValue where
  | tryErr (e : Option GoError)
  | str (s : String)
  | nilDeref
deriving DecidableEq, Repr

/-- Result of running a piece of Go code: either a normal return or an abrupt
termination (panic) carrying its payload. -/
inductive Outcome (A : Type u) where
  | ret (a : A)
  | panic (p : PanicValue)
deriving DecidableEq, Repr

/-- Apply a pure function to the value of a normal return; propagate panics. -/
def Outcome.map {A B : Type u} (f : A → B) : Outcome A → Outcome B
  | Outcome.ret a => Outcome.ret (f a)
  | Outcome.panic p => Outcome.panic p

/-- Sequence two computations; a panic in the first short-circuits. -/
def Outcome.bind {A B : Type u} : Outcome A → (A → Outcome B) → Outcome B
  | Outcome.ret a, f => f a
  | Outcome.panic p, _ => Outcome.panic p

/-- `types.Id` — returns its input unchanged. -/
def types.Id {T : Type} (t : T) : T := t

/-- `types.Return` — constant function ignoring its input. -/
def types.Return {In T : Type} (t : T) : In → T := fun _ => t

/-- `types.Return0` — constant zero-argument function. -/
def types.Return0 {T : Type} (t : T) : Unit → T := fun _ => t

/-- `types.Compose` — applies `fn1`, then `fn2`. -/
def types.Compose {T U V : Type} (fn1 : T → U) (fn2 : U → V) : T → V :=
  fun t => fn2 (fn1 t)

/-- `option.Option[T]`: a presence flag plus a pointer to the stored value
(`none` models a nil pointer).  The zero value is `⟨false, none⟩`. -/
structure GoOption (T : Type) where
  isSome : Bool := false
  value : Option T := none
deriving DecidableEq, Repr

/-- `option.Some` — wraps a value, setting the flag and the pointer. -/
def option.Some {T : Type} (v : T) : GoOption T :=
  { isSome := true, value := some v }

/-- `option.None` — returns the zero value `Option[T]{}`. -/
def option.None {T : Type} : GoOption T := {}

/-- `Option.IsSome` — reports the presence flag. -/
def GoOption.IsSome {T : Type} (optn : GoOption T) : Bool := optn.isSome

/-- `Option.IsNone` — negation of `IsSome`. -/
def GoOption.IsNone {T : Type} (optn : GoOption T) : Bool := !optn.IsSome

/-- `Option.Expect` — returns the stored value, or panics with the given
message when absent (dereferencing a nil pointer is a runtime panic). -/
def GoOption.Expect {T : Type} (optn : GoOption T) (panicMsg : String) : Outcome T :=
  if optn.IsSome then
    match optn.value with
    | some v => Outcome.ret v
    | none => Outcome.panic PanicValue.nilDeref
  else Outcome.panic (PanicValue.str panicMsg)

/-- `Option.Unwrap` — `Expect` with the default message. -/
def GoOption.Unwrap {T : Type} (optn : GoOption T) : Outcome T :=
  optn.Expect ("called Unwrap on None value")

/-- `option.If` — applies `someFn` to the unwrapped value when present,
otherwise calls `noneFn`. -/
def option.If {Out T : Type} (r : GoOption T) (someFn : T → Out) (noneFn : Unit → Out) :
    Outcome Out :=
  if r.IsSome then Outcome.map someFn r.Unwrap else Outcome.ret (noneFn ())

/-- `Option.UnwrapOr` — the value when present, else the default. -/
def GoOption.UnwrapOr {T : Type} (optn : GoOption T) (defaultValue : T) : Outcome T :=
  option.If optn types.Id (types.Return0 defaultValue)

/-- `Option.UnwrapOrElse` — the value when present, else `fn ()`. -/
def GoOption.UnwrapOrElse {T : Type} (optn : GoOption T) (fn : Unit → T) : Outcome T :=
  option.If optn types.Id fn

/-- `option.Map` — transforms the value when present, propagates absence. -/
def option.Map {T U : Type} (r : GoOption T) (fn : T → U) : Outcome (GoOption U) :=
  option.If r (types.Compose fn option.Some) (fun _ => option.None)

/-- `option.FlatMap` — like `Map` but flattens a nested `Option`. -/
def option.FlatMap {T U : Type} (r : GoOption T) (fn : T → GoOption U) :
    Outcome (GoOption U) :=
  Outcome.bind (option.Map r fn) (fun m => option.If m types.Id (fun _ => option.None))

/-- `result.Result[T]`: an `Option[T]` for the success arm plus a nilable
error.  The zero value has an absent option and a nil error. -/
structure GoResult (T : Type) where
  value : GoOption T := {}
  err : Option GoError := none
deriving DecidableEq, Repr

/-- `ErrEmptyResult` — sentinel returned when a `Result` is in error state but
was initialized with a nil error. -/
def ErrEmptyResult : GoError := GoError.base 0

/-- `result.Ok` — wraps a successful value. -/
def result.Ok {T : Type} (v : T) : GoResult T :=
  { value := option.Some v, err := none }

/-- `result.Err` — builds an error-state result (the value arm stays at its
zero value; the error may be nil). -/
def result.Err {T : Type} (err : Option GoError) : GoResult T :=
  { err := err }

/-- `Result.IsOk` — whether the success option is present. -/
def GoResult.IsOk {T : Type} (r : GoResult T) : Bool := r.value.IsSome

/-- `Result.IsErr` — negation of `IsOk`. -/
def GoResult.IsErr {T : Type} (r : GoResult T) : Bool := !r.IsOk

/-- `Result.Value` — the success arm as an `Option[T]`. -/
def GoResult.Value {T : Type} (r : GoResult T) : GoOption T := r.value

/-- `Result.Err` — the error when in error state (coercing a nil stored error
to `ErrEmptyResult`), nil otherwise. -/
def GoResult.Err {T : Type} (r : GoResult T) : Option GoError :=
  if r.IsErr then
    match r.err with
    | none => some ErrEmptyResult
    | some e => some e
  else none

/-- `Result.Expect` — the value when `Ok`, else a string panic. -/
def GoResult.Expect {T : Type} (r : GoResult T) (panicMsg : String) : Outcome T :=
  r.Value.Expect panicMsg

/-- `Result.Unwrap` — `Expect` with the default message. -/
def GoResult.Unwrap {T : Type} (r : GoResult T) : Outcome T :=
  r.Expect ("value should be present when unwrap is called")

/-- `Result.BubbleUp` — the value when `Ok`; when `Err`, panics with the
library's own `tryError` signal carrying `r.Err()`. -/
def GoResult.BubbleUp {T : Type} (r : GoResult T) : Outcome T :=
  if r.IsErr then Outcome.panic (PanicValue.tryErr r.Err) else r.Unwrap

/-- `result.If` — applies `okFn` to the unwrapped value when `Ok`, otherwise
applies `errFn` to `r.Err()`. -/
def result.If {Out T : Type} (r : GoResult T) (okFn : T → Out)
    (errFn : Option GoError → Out) : Outcome Out :=
  if r.IsOk then Outcome.map okFn r.Value.Unwrap else Outcome.ret (errFn r.Err)

/-- `Result.UnwrapOr` — the value when `Ok`, else the default. -/
def GoResult.UnwrapOr {T : Type} (r : GoResult T) (defaultValue : T) : Outcome T :=
  result.If r types.Id (types.Return defaultValue)

/-- `Result.UnwrapOrElse` — the value when `Ok`, else `fn` of the error. -/
def GoResult.UnwrapOrElse {T : Type} (r : GoResult T) (fn : Option GoError → T) :
    Outcome T :=
  result.If r types.Id fn

/-- `Result.MapError` — transforms only the error arm. -/
def GoResult.MapError {T : Type} (r : GoResult T)
    (fn : Option GoError → Option GoError) : Outcome (GoResult T) :=
  result.If r result.Ok (types.Compose fn result.Err)

/-- `result.Map` — transforms the success value, propagating errors. -/
def result.Map {T U : Type} (r : GoResult T) (fn : T → U) : Outcome (GoResult U) :=
  result.If r (types.Compose fn result.Ok) result.Err

/-- `result.FlatMap` — chains a `Result`-returning function, flattening. -/
def result.FlatMap {T U : Type} (r : GoResult T) (fn : T → GoResult U) :
    Outcome (GoResult U) :=
  Outcome.bind (result.Map r fn) (fun m => result.If m types.Id result.Err)

/-- `result.AndThen` — chains a `Result`-returning function when `Ok`,
short-circuiting on `Err`. -/
def result.AndThen {T U : Type} (r : GoResult T) (fn : T → GoResult U) :
    Outcome (GoResult U) :=
  result.If r fn result.Err

/-- `result.Map2` — combines two results: the first error in left-to-right
order, or `Ok (fn rv sv)` when both succeed. -/
def result.Map2 {T U V : Type} (r : GoResult T) (s : GoResult U) (fn : T → U → V) :
    Outcome (GoResult V) :=
  if r.IsErr then Outcome.ret (result.Err r.Err)
  else if s.IsErr then Outcome.ret (result.Err s.Err)
  else
    Outcome.bind r.Value.Unwrap (fun rv =>
      Outcome.map (fun sv => result.Ok (fn rv sv)) s.Value.Unwrap)

/-- `result.Map3` — combines three results: the first error in left-to-right
order, or `Ok (fn rv sv tv)` when all three succeed. -/
def result.Map3 {T U V W : Type} (r : GoResult T) (s : GoResult U) (t : GoResult V)
    (fn : T → U → V → W) : Outcome (GoResult W) :=
  if r.IsErr then Outcome.ret (result.Err r.Err)
  else if s.IsErr then Outcome.ret (result.Err s.Err)
  else if t.IsErr then Outcome.ret (result.Err t.Err)
  else
    Outcome.bind r.Value.Unwrap (fun rv =>
      Outcome.bind s.Value.Unwrap (fun sv =>
        Outcome.map (fun tv => result.Ok (fn rv sv tv)) t.Value.Unwrap))

/-- State seen by a deferred recovery point: the named result slot and the
in-flight panic, if any. -/
structure DeferState (T : Type) where
  res : GoResult T
  pending : Option PanicValue
deriving DecidableEq, Repr

/-- The state reaching the deferred recovery points after the function body
runs: a normal return sets the result slot; a panic leaves the named return at
its zero value with the panic in flight. -/
def DeferState.ofBody {T : Type} (body : Outcome (GoResult T)) : DeferState T :=
  match body with
  | Outcome.ret r => { res := r, pending := none }
  | Outcome.panic p => { res := {}, pending := some p }

/-- `result.Catch` — the outermost deferred recovery point: a normal
completion is left untouched; the library's own `tryError` signal is converted
to `Err(signal.error)` in the result slot; any other panic is re-raised. -/
def result.Catch {T : Type} (s : DeferState T) : Outcome (GoResult T) :=
  match s.pending with
  | none => Outcome.ret s.res
  | some (PanicValue.tryErr e) => Outcome.ret (result.Err e)
  | some p => Outcome.panic p

/-- `result.CatchWith` — a deferred conditional recovery point.  Its inner
`Catch` first converts an in-flight `tryError` into the result slot (other
panics pass through); then, if the slot is in error state and the error
matches `when` (or `when` is empty), the handler runs on `res.Err()`: a normal
handler return becomes the new `Ok` result, while a handler panic (a nested
`BubbleUp`) becomes the new in-flight panic. -/
def result.CatchWith {T : Type} (s : DeferState T)
    (handler : Option GoError → Outcome T) (when : List GoError) : DeferState T :=
  let s1 : DeferState T :=
    match s.pending with
    | some (PanicValue.tryErr e) => { res := result.Err e, pending := none }
    | _ => s
  if s1.res.IsOk then s1
  else
    let err := s1.res.Err
    if when.isEmpty then
      match handler err with
      | Outcome.ret v => { res := result.Ok v, pending := s1.pending }
      | Outcome.panic p => { res := s1.res, pending := some p }
    else if when.any (fun target => errorsIsOpt err target) then
      match handler err with
      | Outcome.ret v => { res := result.Ok v, pending := s1.pending }
      | Outcome.panic p => { res := s1.res, pending := some p }
    else s1

/-- `result.Fallback` — `CatchWith` with a constant handler. -/
def result.Fallback {T : Type} (s : DeferState T) (fallback : T)
    (when : List GoError) : DeferState T :=
  result.CatchWith s (fun _ => Outcome.ret fallback) when

/-- `chain.ApplyToResult[Out, In]` — holds the `Result` being chained. -/
structure ApplyToResult (Out In : Type) where
  result : GoResult In
deriving DecidableEq, Repr

/-- `chain.Chain` — starts a chaining pipeline. -/
def chain.Chain {T : Type} (Out : Type) (r : GoResult T) : ApplyToResult Out T :=
  { result := r }

/-- `ApplyToResult.Map` — delegates to `result.Map`. -/
def ApplyToResult.Map {Out In : Type} (a : ApplyToResult Out In) (fn : In → Out) :
    Outcome (GoResult Out) :=
  result.Map a.result fn

/-- `ApplyToResult.AndThen` — delegates to `result.AndThen`. -/
def ApplyToResult.AndThen {Out In : Type} (a : ApplyToResult Out In)
    (fn : In → GoResult Out) : Outcome (GoResult Out) :=
  result.AndThen a.result fn

/-- `ApplyToResult.Unwrap` — terminal: an error-state result is rebuilt as
`Err[Out]`; otherwise the Go code type-asserts `any(result).(Result[Out])`,
returning the held result on success and panicking on mismatch.  The runtime
type assertion is passed in as `assert`: it yields `some` exactly when `In`
and `Out` are the same runtime type (then it is the identity), `none`
otherwise. -/
def ApplyToResult.Unwrap {Out In : Type} (a : ApplyToResult Out In)
    (assert : GoResult In → Option (GoResult Out)) : Outcome (GoResult Out) :=
  if a.result.IsErr then Outcome.ret (result.Err a.result.Err)
  else
    match assert a.result with
    | some out => Outcome.ret out
    | none => Outcome.panic (PanicValue.str ("type mismatch in chain unwrap"))

/-- `ApplyToResult.OrElse` — terminal: `Unwrap().UnwrapOr(fallback)`. -/
def ApplyToResult.OrElse {Out In : Type} (a : ApplyToResult Out In)
    (assert : GoResult In → Option (GoResult Out)) (fallback : Out) : Outcome Out :=
  Outcome.bind (a.Unwrap assert) (fun r => r.UnwrapOr fallback)

/-- `ApplyToResult.OrElseGet` — terminal: `Unwrap().UnwrapOrElse(fn)`. -/
def ApplyToResult.OrElseGet {Out In : Type} (a : ApplyToResult Out In)
    (assert : GoResult In → Option (GoResult Out)) (fn : Option GoError → Out) :
    Outcome Out :=
  Outcome.bind (a.Unwrap assert) (fun r => r.UnwrapOrElse fn)

/-- `chain.ApplyToResult2[Out1, Out2, In]` — two-step pipeline state. -/
structure ApplyToResult2 (Out1 Out2 In : Type) where
  result : GoResult In
deriving DecidableEq, Repr

/-- `chain.Chain2` — starts a two-step chain. -/
def chain.Chain2 {T : Type} (Out2 Out1 : Type) (r : GoResult T) :
    ApplyToResult2 Out1 Out2 T :=
  { result := r }

/-- `ApplyToResult2.AndThen` — applies `result.AndThen`, then re-wraps with
`Chain` for the second step. -/
def ApplyToResult2.AndThen {Out1 Out2 T : Type} (a : ApplyToResult2 Out1 Out2 T)
    (fn : T → GoResult Out1) : Outcome (ApplyToResult Out2 Out1) :=
  Outcome.map (chain.Chain Out2) (result.AndThen a.result fn)

/-- `ApplyToResult2.Map` — applies `result.Map`, then re-wraps with `Chain`. -/
def ApplyToResult2.Map {Out1 Out2 T : Type} (a : ApplyToResult2 Out1 Out2 T)
    (fn : T → Out1) : Outcome (ApplyToResult Out2 Out1) :=
  Outcome.map (chain.Chain Out2) (result.Map a.result fn)

/-- An `Option[T]` is well-formed when its presence flag agrees with its
pointer; exactly the values produced by the constructors `Some` and `None`. -/
def GoOption.WF {T : Type} (optn : GoOption T) : Bool :=
  optn.value.isSome == optn.isSome

/-- C3: `Result.Err()` returns nil exactly when the result is `Ok`; a result
in error state never exposes a nil error; in particular `Err(nil).Err()` is
the sentinel `ErrEmptyResult` rather than nil. -/
theorem claim3_err_accessor_never_nil (T : Type) (r : GoResult T) :
    (r.Err = none ↔ r.IsOk = true) ∧
    (r.IsErr = true → r.Err.isSome = true) ∧
    (result.Err none : GoResult T).Err = some ErrEmptyResult := by
  obtain ⟨⟨b, val⟩, err⟩ := r
  refine ⟨?_, ?_, rfl⟩ <;> cases b <;> cases err <;>
    simp [GoResult.Err, GoResult.IsOk, GoResult.IsErr, GoOption.IsSome]

/-- C3 witness: the accessor facts at concrete results. -/
theorem claim3_err_accessor_never_nil_witness :
    ((result.Err (some (GoError.base 3)) : GoResult Nat)).Err.isSome = true ∧
    (result.Ok (5 : Nat)).Err = none ∧
    ((result.Err none : GoResult Nat)).Err = some ErrEmptyResult := by
  refine ⟨(claim3_err_accessor_never_nil Nat _).2.1 rfl, ?_,
    (claim3_err_accessor_never_nil Nat (result.Ok 5)).2.2⟩
  exact (claim3_err_accessor_never_nil Nat (result.Ok 5)).1.mpr rfl

/-- C6 counterexample: the functor identity law fails, as stated, on the
reachable result `Err(nil)`: mapping the identity rebuilds the error through
the `Err()` accessor, which coerces the nil error to `ErrEmptyResult`, so the
mapped result differs from the original. -/
theorem claim6_functor_identity_counterexample :
    result.Map (result.Err none : GoResult Nat) types.Id ≠
      Outcome.ret (result.Err none : GoResult Nat) := by
  decide

/-- C6 (amended): the functor identity law holds for every well-formed
`Option`, and for every `Result` built by `Ok` or by `Err` with a non-nil
error; the sole exception is `Err(nil)`, where `Map` yields
`Err(ErrEmptyResult)` instead. -/
theorem claim6_functor_identity_amended (T : Type) :
    (∀ optn : GoOption T, optn.WF = true → option.Map optn types.Id = Outcome.ret optn) ∧
    (∀ v : T, result.Map (result.Ok v) types.Id = Outcome.ret (result.Ok v)) ∧
    (∀ e : GoError, result.Map (result.Err (some e) : GoResult T) types.Id =
      Outcome.ret (result.Err (some e))) ∧
    result.Map (result.Err none : GoResult T) types.Id =
      Outcome.ret (result.Err (some ErrEmptyResult)) := by
  refine ⟨?_, ?_, ?_, ?_⟩
  · intro optn hwf
    obtain ⟨b, val⟩ := optn
    cases b <;> cases val <;>
      simp_all [GoOption.WF, option.Map, option.If, GoOption.IsSome, GoOption.Unwrap,
        GoOption.Expect, types.Compose, types.Id, option.Some, option.None, Outcome.map]
  · intro v
    simp [result.Map, result.If, GoResult.IsOk, GoResult.Value, GoOption.IsSome,
      result.Ok, option.Some, GoOption.Unwrap, GoOption.Expect, types.Compose,
      types.Id, Outcome.map]
  · intro e
    simp [result.Map, result.If, GoResult.IsOk, GoResult.Value, GoOption.IsSome,
      result.Err, GoResult.Err, GoResult.IsErr, types.Compose, types.Id, Outcome.map]
  · simp [result.Map, result.If, GoResult.IsOk, GoResult.Value, GoOption.IsSome,
      result.Err, GoResult.Err, GoResult.IsErr, types.Compose, types.Id, Outcome.map]

/-- C6 witness: the amended law evaluated at concrete containers. -/
theorem claim6_functor_identity_amended_witness :
    option.Map (option.Some (2 : Nat)) types.Id = Outcome.ret (option.Some 2) ∧
    result.Map (result.Ok (7 : Nat)) types.Id = Outcome.ret (result.Ok 7) ∧
    result.Map (result.Err (some (GoError.base 4)) : GoResult Nat) types.Id =
      Outcome.ret (result.Err (some (GoError.base 4))) :=
  ⟨(claim6_functor_identity_amended Nat).1 _ rfl,
   (claim6_functor_identity_amended Nat).2.1 7,
   (claim6_functor_identity_amended Nat).2.2.1 (GoError.base 4)⟩

/-- C7: `None[T]()` is the zero-initialized `Option[T]`; `Some(v).IsSome()`,
`Some(v).Unwrap() == v`, and `None[T]().IsNone()` hold for every `v`. -/
theorem claim7_option_constructors (T : Type) (v : T) :
    (option.None : GoOption T) = GoOption.mk false none ∧
    (option.Some v).IsSome = true ∧
    (option.Some v).Unwrap = Outcome.ret v ∧
    (option.None : GoOption T).IsNone = true :=
  ⟨rfl, rfl, rfl, rfl⟩

/-- C10: the zero-initialized `Result[T]` is an error-state result exposing
the sentinel `ErrEmptyResult`, and `UnwrapOr` returns the default on it. -/
theorem claim10_zero_result_is_err (T : Type) (d : T) :
    ({} : GoResult T).IsOk = false ∧
    ({} : GoResult T).IsErr = true ∧
    ({} : GoResult T).Err = some ErrEmptyResult ∧
    ({} : GoResult T).UnwrapOr d = Outcome.ret d :=
  ⟨rfl, rfl, rfl, rfl⟩

/-- C4: `Map2` returns the first error in left-to-right order (`r`'s error
whenever `r` is `Err`, `s`'s error when `r` is `Ok` and `s` is `Err`) and
applies `fn` only when both are `Ok`; `Map3` analogously returns the first
error among its three inputs and applies `fn` only when all three are `Ok`. -/
theorem claim4_map2_map3_first_error (T U V W : Type) (r : GoResult T)
    (s : GoResult U) (t : GoResult V) (fn2 : T → U → W) (fn3 : T → U → V → W) :
    (r.IsErr = true → result.Map2 r s fn2 = Outcome.ret (result.Err r.Err)) ∧
    (r.IsOk = true → s.IsErr = true →
      result.Map2 r s fn2 = Outcome.ret (result.Err s.Err)) ∧
    (∀ (a : T) (b : U),
      result.Map2 (result.Ok a) (result.Ok b) fn2 = Outcome.ret (result.Ok (fn2 a b))) ∧
    (∀ (a : T) (e : GoError),
      result.Map2 (result.Ok a) (result.Err (some e) : GoResult U) fn2 =
        Outcome.ret (result.Err (some e))) ∧
    (∀ (b : U) (e : GoError),
      result.Map2 (result.Err (some e) : GoResult T) (result.Ok b) fn2 =
        Outcome.ret (result.Err (some e))) ∧
    (∀ (e1 e2 : GoError),
      result.Map2 (result.Err (some e1) : GoResult T) (result.Err (some e2) : GoResult U) fn2 =
        Outcome.ret (result.Err (some e1))) ∧
    (r.IsErr = true → result.Map3 r s t fn3 = Outcome.ret (result.Err r.Err)) ∧
    (r.IsOk = true → s.IsErr = true →
      result.Map3 r s t fn3 = Outcome.ret (result.Err s.Err)) ∧
    (r.IsOk = true → s.IsOk = true → t.IsErr = true →
      result.Map3 r s t fn3 = Outcome.ret (result.Err t.Err)) ∧
    (∀ (a : T) (b : U) (c : V),
      result.Map3 (result.Ok a) (result.Ok b) (result.Ok c) fn3 =
        Outcome.ret (result.Ok (fn3 a b c))) := by
  refine ⟨?_, ?_, ?_, ?_, ?_, ?_, ?_, ?_, ?_, ?_⟩
  · intro hr; simp [result.Map2, hr]
  · intro hr hs
    have hs0 : s.IsOk = false := by simpa [GoResult.IsErr] using hs
    simp [result.Map2, GoResult.IsErr, hr, hs0]
  · intro a b
    simp [result.Map2, GoResult.IsErr, GoResult.IsOk, GoResult.Value, result.Ok,
      option.Some, GoOption.IsSome, GoOption.Unwrap, GoOption.Expect,
      Outcome.bind, Outcome.map]
  · intro a e
    simp [result.Map2, GoResult.IsErr, GoResult.IsOk, GoResult.Value, result.Ok,
      result.Err, GoResult.Err, option.Some, GoOption.IsSome]
  · intro b e
    simp [result.Map2, GoResult.IsErr, GoResult.IsOk, GoResult.Err, result.Err,
      GoOption.IsSome]
  · intro e1 e2
    simp [result.Map2, GoResult.IsErr, GoResult.IsOk, GoResult.Err, result.Err,
      GoOption.IsSome]
  · intro hr; simp [result.Map3, hr]
  · intro hr hs
    have hs0 : s.IsOk = false := by simpa [GoResult.IsErr] using hs
    simp [result.Map3, GoResult.IsErr, hr, hs0]
  · intro hr hs ht
    have ht0 : t.IsOk = false := by simpa [GoResult.IsErr] using ht
    simp [result.Map3, GoResult.IsErr, hr, hs, ht0]
  · intro a b c
    simp [result.Map3, GoResult.IsErr, GoResult.IsOk, GoResult.Value, result.Ok,
      option.Some, GoOption.IsSome, GoOption.Unwrap, GoOption.Expect,
      Outcome.bind, Outcome.map]

/-- C4 witness: `Map2`/`Map3` evaluated at concrete results. -/
theorem claim4_map2_map3_first_error_witness :
    result.Map2 (result.Err (some (GoError.base 1)) : GoResult Nat) (result.Ok (2 : Nat))
      (fun a b => a + b) = Outcome.ret (result.Err (some (GoError.base 1))) ∧
    result.Map2 (result.Ok (1 : Nat)) (result.Err (some (GoError.base 2)) : GoResult Nat)
      (fun a b => a + b) = Outcome.ret (result.Err (some (GoError.base 2))) ∧
    result.Map2 (result.Ok (1 : Nat)) (result.Ok (2 : Nat)) (fun a b => a + b) =
      Outcome.ret (result.Ok 3) ∧
    result.Map3 (result.Ok (1 : Nat)) (result.Ok (2 : Nat))
      (result.Err (some (GoError.base 9)) : GoResult Nat) (fun a b c => a + b + c) =
      Outcome.ret (result.Err (some (GoError.base 9))) ∧
    result.Map3 (result.Ok (1 : Nat)) (result.Ok (2 : Nat)) (result.Ok (3 : Nat))
      (fun a b c => a + b + c) = Outcome.ret (result.Ok 6) := by
  have h1 := (claim4_map2_map3_first_error Nat Nat Nat Nat
    (result.Err (some (GoError.base 1))) (result.Ok 2) (result.Ok 3)
    (fun a b => a + b) (fun a b c => a + b + c)).1 rfl
  have h2 := (claim4_map2_map3_first_error Nat Nat Nat Nat
    (result.Ok 1) (result.Err (some (GoError.base 2))) (result.Ok 3)
    (fun a b => a + b) (fun a b c => a + b + c)).2.1 rfl rfl
  have h3 := (claim4_map2_map3_first_error Nat Nat Nat Nat
    (result.Ok 1) (result.Ok 2) (result.Ok 3)
    (fun a b => a + b) (fun a b c => a + b + c)).2.2.1 1 2
  have h9 := (claim4_map2_map3_first_error Nat Nat Nat Nat
    (result.Ok 1) (result.Ok 2) (result.Err (some (GoError.base 9)))
    (fun a b => a + b) (fun a b c => a + b + c)).2.2.2.2.2.2.2.2.1 rfl rfl rfl
  have h10 := (claim4_map2_map3_first_error Nat Nat Nat Nat
    (result.Ok 1) (result.Ok 2) (result.Ok 3)
    (fun a b => a + b) (fun a b c => a + b + c)).2.2.2.2.2.2.2.2.2 1 2 3
  exact ⟨h1.trans (by decide), h2.trans (by decide), h3, h9.trans (by decide), h10⟩

/-- C5: failures short-circuit the combinators — on an `Err` input, `Map`,
`AndThen`, `Map2` and `Map3` never invoke their transformation function (the
output is the same for every such function); and in a three-step `AndThen`
pipeline where step 2 fails, step 3's function is never invoked and the final
result carries step 2's error. -/
theorem claim5_short_circuit (T U V W X Y : Type) (r : GoResult T) (g : T → U)
    (fn : T → GoResult U) (s : GoResult V) (fn2 : T → V → W) (t : GoResult W)
    (fn3 : T → V → W → X) (v : T) (w : U) (e : GoError)
    (step1 : T → GoResult U) (step2 : U → GoResult V) (step3 : V → GoResult Y)
    (hr : r.IsErr = true) (h1 : step1 v = result.Ok w)
    (h2 : step2 w = result.Err (some e)) :
    result.Map r g = Outcome.ret (result.Err r.Err) ∧
    result.AndThen r fn = Outcome.ret (result.Err r.Err) ∧
    result.Map2 r s fn2 = Outcome.ret (result.Err r.Err) ∧
    result.Map3 r s t fn3 = Outcome.ret (result.Err r.Err) ∧
    Outcome.bind (result.AndThen (result.Ok v) step1) (fun x =>
      Outcome.bind (result.AndThen x step2) (fun y => result.AndThen y step3)) =
      Outcome.ret (result.Err (some e)) := by
  have hok : r.IsOk = false := by
    simpa [GoResult.IsErr] using hr
  refine ⟨?_, ?_, ?_, ?_, ?_⟩
  · simp [result.Map, result.If, hok]
  · simp [result.AndThen, result.If, hok]
  · simp [result.Map2, hr]
  · simp [result.Map3, hr]
  · simp [result.AndThen, result.If, GoResult.IsOk, GoResult.Value, result.Ok,
      option.Some, GoOption.IsSome, GoOption.Unwrap, GoOption.Expect,
      Outcome.bind, Outcome.map, h1, h2, result.Err, GoResult.Err, GoResult.IsErr]

/-- C5 witness: the short-circuit facts at a concrete failing pipeline. -/
theorem claim5_short_circuit_witness :
    result.Map (result.Err (some (GoError.base 2)) : GoResult Nat) (fun x => x + 1) =
      Outcome.ret (result.Err (some (GoError.base 2))) ∧
    result.AndThen (result.Err (some (GoError.base 2)) : GoResult Nat)
      (fun x => result.Ok (x + 1)) = Outcome.ret (result.Err (some (GoError.base 2))) ∧
    Outcome.bind (result.AndThen (result.Ok (4 : Nat)) (fun x => result.Ok (x + 1)))
      (fun x => Outcome.bind
        (result.AndThen x (fun _ : Nat => (result.Err (some (GoError.base 8)) : GoResult Nat)))
        (fun y => result.AndThen y (fun z : Nat => result.Ok (z * 2)))) =
      Outcome.ret (result.Err (some (GoError.base 8))) := by
  have h := claim5_short_circuit Nat Nat Nat Nat Nat Nat
    (result.Err (some (GoError.base 2))) (fun x => x + 1) (fun x => result.Ok (x + 1))
    (result.Ok 0) (fun a b => a + b) (result.Ok 0) (fun a b c => a + b + c)
    4 5 (GoError.base 8) (fun x => result.Ok (x + 1))
    (fun _ => result.Err (some (GoError.base 8))) (fun z => result.Ok (z * 2))
    rfl rfl rfl
  exact ⟨h.1.trans (by decide), h.2.1.trans (by decide), h.2.2.2.2⟩

/-- C8: the fluent sequencer only delegates: `Chain(r).Map(f)` is
`result.Map(r, f)`, `Chain(r).AndThen(f)` is `result.AndThen(r, f)`, and the
two-step `Chain2(r).AndThen(f).AndThen(g)` equals the nested
`result.AndThen(result.AndThen(r, f), g)`. -/
theorem claim8_chain_delegates (T U V : Type) (r : GoResult T) (f : T → U)
    (g : T → GoResult U) (k : U → GoResult V) :
    (chain.Chain U r).Map f = result.Map r f ∧
    (chain.Chain U r).AndThen g = result.AndThen r g ∧
    Outcome.bind ((chain.Chain2 V U r).AndThen g) (fun a => a.AndThen k) =
      Outcome.bind (result.AndThen r g) (fun r1 => result.AndThen r1 k) := by
  refine ⟨rfl, rfl, ?_⟩
  cases hh : result.AndThen r g <;>
    simp [ApplyToResult2.AndThen, chain.Chain2, hh, Outcome.map, Outcome.bind,
      ApplyToResult.AndThen, chain.Chain]

/-- C9: the chain terminal `Unwrap` returns `Err[Out]` of the held result's
error, without panicking, whenever the held result is `Err` (so `OrElse`
yields the fallback there); returns the held result itself when it is `Ok`
and the runtime type assertion succeeds (`Out` = `In`); and panics with
"type mismatch in chain unwrap" when the held result is `Ok` but the
assertion fails (`Out` ≠ `In`), making `OrElse`/`OrElseGet` panic too. -/
theorem claim9_chain_unwrap_terminals (Out In : Type) (a : ApplyToResult Out In)
    (assert : GoResult In → Option (GoResult Out)) (b : ApplyToResult Out Out)
    (fallback : Out) (fn : Option GoError → Out)
    (ha : a.result.IsErr = true) (hb : b.result.IsOk = true) :
    a.Unwrap assert = Outcome.ret (result.Err a.result.Err) ∧
    a.OrElse assert fallback = Outcome.ret fallback ∧
    b.Unwrap some = Outcome.ret b.result ∧
    (∀ c : ApplyToResult Out In, c.result.IsOk = true →
      c.Unwrap (fun _ => none) =
        Outcome.panic (PanicValue.str ("type mismatch in chain unwrap")) ∧
      c.OrElse (fun _ => none) fallback =
        Outcome.panic (PanicValue.str ("type mismatch in chain unwrap")) ∧
      c.OrElseGet (fun _ => none) fn =
        Outcome.panic (PanicValue.str ("type mismatch in chain unwrap"))) := by
  have hu : a.Unwrap assert = Outcome.ret (result.Err a.result.Err) := by
    simp [ApplyToResult.Unwrap, ha]
  have hberr : b.result.IsErr = false := by simp [GoResult.IsErr, hb]
  refine ⟨hu, ?_, ?_, ?_⟩
  · simp [ApplyToResult.OrElse, hu, Outcome.bind, GoResult.UnwrapOr, result.If,
      GoResult.IsOk, result.Err, GoOption.IsSome, types.Return]
  · simp [ApplyToResult.Unwrap, hberr]
  · intro c hc
    have hcerr : c.result.IsErr = false := by simp [GoResult.IsErr, hc]
    have hcu : c.Unwrap (fun _ => none) =
        Outcome.panic (PanicValue.str ("type mismatch in chain unwrap")) := by
      simp [ApplyToResult.Unwrap, hcerr]
    exact ⟨hcu, by simp [ApplyToResult.OrElse, hcu, Outcome.bind],
      by simp [ApplyToResult.OrElseGet, hcu, Outcome.bind]⟩

/-- C9 witness: the terminal behaviors at concrete chains. -/
theorem claim9_chain_unwrap_terminals_witness :
    (ApplyToResult.mk (result.Err (some (GoError.base 6)) : GoResult Bool) :
        ApplyToResult Nat Bool).Unwrap (fun _ => none) =
      Outcome.ret (result.Err (some (GoError.base 6))) ∧
    (ApplyToResult.mk (result.Err (some (GoError.base 6)) : GoResult Bool) :
        ApplyToResult Nat Bool).OrElse (fun _ => none) 99 = Outcome.ret 99 ∧
    (ApplyToResult.mk (result.Ok (4 : Nat)) : ApplyToResult Nat Nat).Unwrap some =
      Outcome.ret (result.Ok 4) ∧
    (ApplyToResult.mk (result.Ok true) : ApplyToResult Nat Bool).Unwrap (fun _ => none) =
      Outcome.panic (PanicValue.str ("type mismatch in chain unwrap")) ∧
    (ApplyToResult.mk (result.Ok true) : ApplyToResult Nat Bool).OrElse (fun _ => none) 99 =
      Outcome.panic (PanicValue.str ("type mismatch in chain unwrap")) := by
  have h := claim9_chain_unwrap_terminals Nat Bool
    (ApplyToResult.mk (result.Err (some (GoError.base 6))))
    (fun _ => none) (ApplyToResult.mk (result.Ok 4)) 99 (fun _ => 0) rfl rfl
  have hc := h.2.2.2 (ApplyToResult.mk (result.Ok true)) rfl
  exact ⟨h.1.trans (by decide), h.2.1, h.2.2.1, hc.1, hc.2.1⟩

/-- C1: `BubbleUp` inside a function whose deferred recovery point is
`Catch(&res)` yields the contained value when the result is `Ok`; when it is
`Err`, the function completes normally with `res` set to `Err` of the error
returned by `Err()`; a normal return reaches the caller exactly as returned;
and a panic that is not the library's own `tryError` signal is re-raised
unchanged by `Catch`. -/
theorem claim1_bubbleup_catch (T : Type) (r res : GoResult T) (p : PanicValue)
    (hp : ∀ e, p ≠ PanicValue.tryErr e) :
    (∀ v, r = result.Ok v → r.BubbleUp = Outcome.ret v) ∧
    (r.IsErr = true →
      result.Catch (DeferState.ofBody (Outcome.map result.Ok r.BubbleUp)) =
        Outcome.ret (result.Err r.Err)) ∧
    result.Catch (DeferState.mk res none) = Outcome.ret res ∧
    result.Catch (DeferState.mk res (some p)) = Outcome.panic p := by
  refine ⟨?_, ?_, rfl, ?_⟩
  · rintro v rfl
    simp [GoResult.BubbleUp, GoResult.IsErr, GoResult.IsOk, GoResult.Value,
      result.Ok, option.Some, GoOption.IsSome, GoResult.Unwrap, GoResult.Expect,
      GoOption.Expect]
  · intro hr
    simp [GoResult.BubbleUp, hr, Outcome.map, DeferState.ofBody, result.Catch]
  · cases p with
    | tryErr e => exact absurd rfl (hp e)
    | str s => rfl
    | nilDeref => rfl

/-- C1 witness: the protocol at concrete results and a concrete foreign
panic. -/
theorem claim1_bubbleup_catch_witness :
    (result.Ok (3 : Nat)).BubbleUp = Outcome.ret 3 ∧
    result.Catch (DeferState.ofBody (Outcome.map result.Ok
      (result.Err (some (GoError.base 7)) : GoResult Nat).BubbleUp)) =
      Outcome.ret (result.Err (some (GoError.base 7))) ∧
    result.Catch (DeferState.mk (result.Ok (5 : Nat)) none) = Outcome.ret (result.Ok 5) ∧
    result.Catch (DeferState.mk (result.Ok (5 : Nat)) (some (PanicValue.str ("boom")))) =
      Outcome.panic (PanicValue.str ("boom")) := by
  have hp : ∀ e, PanicValue.str ("boom") ≠ PanicValue.tryErr e := fun e h => by cases h
  have hA := claim1_bubbleup_catch Nat (result.Ok 3) (result.Ok 5)
    (PanicValue.str ("boom")) hp
  have hB := claim1_bubbleup_catch Nat (result.Err (some (GoError.base 7)))
    (result.Ok 5) (PanicValue.str ("boom")) hp
  exact ⟨hA.1 3 rfl, (hB.2.1 rfl).trans (by decide), hA.2.2.1, hA.2.2.2⟩

/-- C2: a deferred `CatchWith(&res, handler, when...)` is a no-op when `res`
is not in error state; when `res` is `Err` and `when` is empty, `res` becomes
`Ok(handler(err))` for the current error; when `when` is non-empty the
handler runs exactly when the current error is one of the `when` errors or
wraps one (the `errors.Is` chain comparison); for an error matching none of
`when` the original `Err` is left in place, and the surrounding `Catch`
surfaces it unchanged. -/
theorem claim2_catchwith_selective (T : Type) (hf : Option GoError → T)
    (when : List GoError) (r : GoResult T) :
    (r.IsOk = true →
      result.CatchWith (DeferState.mk r none) (fun e => Outcome.ret (hf e)) when =
        DeferState.mk r none) ∧
    (r.IsErr = true →
      result.CatchWith (DeferState.mk r none) (fun e => Outcome.ret (hf e)) [] =
        DeferState.mk (result.Ok (hf r.Err)) none) ∧
    (r.IsErr = true → when.any (fun target => errorsIsOpt r.Err target) = true →
      result.CatchWith (DeferState.mk r none) (fun e => Outcome.ret (hf e)) when =
        DeferState.mk (result.Ok (hf r.Err)) none) ∧
    (r.IsErr = true → when ≠ [] →
      when.any (fun target => errorsIsOpt r.Err target) = false →
      result.CatchWith (DeferState.mk r none) (fun e => Outcome.ret (hf e)) when =
        DeferState.mk r none ∧
      result.Catch (DeferState.mk r none) = Outcome.ret r) := by
  refine ⟨?_, ?_, ?_, ?_⟩
  · intro hok
    simp [result.CatchWith, hok]
  · intro hr
    have h0 : r.IsOk = false := by simpa [GoResult.IsErr] using hr
    simp [result.CatchWith, h0]
  · intro hr hw
    have h0 : r.IsOk = false := by simpa [GoResult.IsErr] using hr
    cases when with
    | nil => simp at hw
    | cons a l => simp [result.CatchWith, h0, hw]
  · intro hr hne hw
    have h0 : r.IsOk = false := by simpa [GoResult.IsErr] using hr
    cases when with
    | nil => exact absurd rfl hne
    | cons a l => exact ⟨by simp [result.CatchWith, h0, hw], rfl⟩

/-- C2 witness: `CatchWith` at a concrete `Ok` slot, a concrete matching
wrapped error, and a concrete non-matching error. -/
theorem claim2_catchwith_selective_witness :
    result.CatchWith (DeferState.mk (result.Ok (1 : Nat)) none)
      (fun _ => Outcome.ret (42 : Nat)) [GoError.base 9] =
      DeferState.mk (result.Ok 1) none ∧
    result.CatchWith (DeferState.mk (result.Err (some (GoError.base 5)) : GoResult Nat) none)
      (fun _ => Outcome.ret (42 : Nat)) [] =
      DeferState.mk (result.Ok 42) none ∧
    result.CatchWith
      (DeferState.mk (result.Err (some (GoError.wrap 1 (GoError.base 2))) : GoResult Nat) none)
      (fun _ => Outcome.ret (42 : Nat)) [GoError.base 2] =
      DeferState.mk (result.Ok 42) none ∧
    result.CatchWith (DeferState.mk (result.Err (some (GoError.base 5)) : GoResult Nat) none)
      (fun _ => Outcome.ret (42 : Nat)) [GoError.base 9] =
      DeferState.mk (result.Err (some (GoError.base 5))) none ∧
    result.Catch (DeferState.mk (result.Err (some (GoError.base 5)) : GoResult Nat) none) =
      Outcome.ret (result.Err (some (GoError.base 5))) := by
  have hA := (claim2_catchwith_selective Nat (fun _ => 42) [GoError.base 9]
    (result.Ok 1)).1 rfl
  have hB := (claim2_catchwith_selective Nat (fun _ => 42) [GoError.base 9]
    (result.Err (some (GoError.base 5)))).2.1 rfl
  have hC := (claim2_catchwith_selective Nat (fun _ => 42) [GoError.base 2]
    (result.Err (some (GoError.wrap 1 (GoError.base 2))))).2.2.1 rfl (by decide)
  have hD := (claim2_catchwith_selective Nat (fun _ => 42) [GoError.base 9]
    (result.Err (some (GoError.base 5)))).2.2.2 rfl (by decide) (by decide)
  exact ⟨hA, hB.trans (by decide), hC.trans (by decide), hD.1, hD.2⟩
